import Mathlib

/-!
Verification of the fuse-plugin conversational authentication and loan-lookup
engine (src/fuse-plugin/index.ts) against its natural-language specification.

The TypeScript source is shallowly embedded below.  JavaScript string
builtins (trim, toLowerCase, toUpperCase, includes, split, repeat,
substring) are modelled as executable functions on the underlying character
lists; the regular expression ^\d+$ is modelled by isAllDigits.  JavaScript
numbers appearing in loan records are modelled as integers (the only numeric
operation used by the code under scrutiny is toFixed(2), which on an
integer-valued number appends ".00").  The environment Date parser used by
sanitizeLoanObject is passed as an explicit parameter.  Timestamps stored in
sessions are modelled as integer milliseconds.
-/

namespace Fuse

/-- JS \d character class: code points 48..57. -/
def isDigitChar (c : Char) : Bool :=
  48 ≤ c.toNat && c.toNat ≤ 57

/-- ASCII whitespace removed by JS String.prototype.trim (the claims only
involve ASCII input). -/
def isWSChar (c : Char) : Bool :=
  c.toNat = 32 || c.toNat = 9 || c.toNat = 10 || c.toNat = 13 ||
  c.toNat = 11 || c.toNat = 12

/-- ASCII model of the per-character effect of JS toLowerCase. -/
def jsCharToLower (c : Char) : Char :=
  if 65 ≤ c.toNat ∧ c.toNat ≤ 90 then Char.ofNat (c.toNat + 32) else c

/-- ASCII model of the per-character effect of JS toUpperCase. -/
def jsCharToUpper (c : Char) : Char :=
  if 97 ≤ c.toNat ∧ c.toNat ≤ 122 then Char.ofNat (c.toNat - 32) else c

/-- Trim from the front and, via reversal, from the back. -/
def listTrim (l : List Char) : List Char :=
  (((l.dropWhile isWSChar).reverse.dropWhile isWSChar).reverse)

/-- Model of JS text.trim(). -/
def jsTrim (s : String) : String :=
  ⟨listTrim s.data⟩

/-- Model of JS text.toLowerCase() on ASCII text. -/
def jsToLower (s : String) : String :=
  ⟨s.data.map jsCharToLower⟩

/-- Model of JS regular expression test ^\d+$ : nonempty and all digits. -/
def isAllDigits (s : String) : Bool :=
  !s.data.isEmpty && s.data.all isDigitChar

/-- Does the list start with the given pattern. -/
def listStartsWith : List Char → List Char → Bool
  | _, [] => true
  | [], _ :: _ => false
  | a :: as, b :: bs => a = b && listStartsWith as bs

/-- Does the pattern occur contiguously inside the list. -/
def listContainsSub : List Char → List Char → Bool
  | [], pat => pat.isEmpty
  | s@(_ :: rest), pat => listStartsWith s pat || listContainsSub rest pat

/-- Model of JS s.includes(pat). -/
def strIncludes (s pat : String) : Bool :=
  listContainsSub s.data pat.data

/-- Split a character list at every occurrence of the separator character
(model of JS String.prototype.split with a one-character separator). -/
def splitOnChar (c : Char) : List Char → List (List Char)
  | [] => [[]]
  | x :: xs =>
    let r := splitOnChar c xs
    if x = c then [] :: r
    else
      match r with
      | [] => [[x]]
      | h :: t => (x :: h) :: t

/-- Model of JS email.split(at-sign). -/
def jsSplitAt (s : String) : List String :=
  (splitOnChar '@' s.data).map (fun l => ⟨l⟩)

/-- Model of JS stringOfStar.repeat(n). -/
def starRepeat (n : Nat) : String :=
  ⟨List.replicate n '*'⟩

/-- Model of JS s.substring(0, 2). -/
def jsTake2 (s : String) : String :=
  ⟨s.data.take 2⟩

/-- COOPERATIVE_MAP from the source, as an ordered association list (the
iteration order of Object.entries on this literal).  Every value is a
nonempty string, so the truthiness test on a successful property lookup in
the source always passes. -/
def COOPERATIVE_MAP : List (String × String) :=
  [("TESTING", "testing"),
   ("NSCDCKWACOOP", "nscdckwacoop"),
   ("NSCDCJOS", "nscdcjos"),
   ("CTLS", "ctls"),
   ("FUSION", "fusion"),
   ("LIFELINEMCS", "lifelinemcs"),
   ("TFC", "tfc"),
   ("IMMIGRATION", "immigrationmcs"),
   ("IMMIGRATIONMCS", "immigrationmcs"),
   ("OCTICS", "octics"),
   ("MILLY", "milly"),
   ("AVIATIONABJ", "aviationabj"),
   ("FCDAMCS", "fcdamcs"),
   ("INECBAUCHI", "inecbauchi"),
   ("INECKWARA", "ineckwara"),
   ("GPMS", "gpms"),
   ("INECHQMCS", "inechqmcs"),
   ("NNMCSL", "nnmcsl"),
   ("INECSMCS", "inecsmcs"),
   ("MODACS", "modacs"),
   ("NCCMCS", "nccmcs"),
   ("NICNMCS", "nicnmcs"),
   ("OAGF", "oagf"),
   ("SAMCOS", "samcos"),
   ("VALGEECS", "valgeecs")]

/-- input.toUpperCase().replace(removing every character outside A-Z0-9). -/
def normalizeCoopInput (s : String) : String :=
  ⟨(s.data.map jsCharToUpper).filter
    (fun c => (65 ≤ c.toNat && c.toNat ≤ 90) || (48 ≤ c.toNat && c.toNat ≤ 57))⟩

/-- First-match property lookup on the association list (JS object indexing;
keys of COOPERATIVE_MAP are distinct). -/
def assocLookup (key : String) : List (String × String) → Option String
  | [] => none
  | (k, v) :: rest => if k = key then some v else assocLookup key rest

/-- Levenshtein distance.  The source fills the standard DP matrix with
matrix j i = min(matrix j (i-1) + 1, matrix (j-1) i + 1,
matrix (j-1) (i-1) + cost); this recursion computes the same recurrence on
suffixes. -/
def editDistanceList : List Char → List Char → Nat
  | [], b => b.length
  | a, [] => a.length
  | a₁ :: as, b₁ :: bs =>
    min (min (editDistanceList (a₁ :: as) bs + 1) (editDistanceList as (b₁ :: bs) + 1))
      (editDistanceList as bs + (if a₁ = b₁ then 0 else 1))
  termination_by a b => a.length + b.length
  decreasing_by
    all_goals simp [List.length]
    all_goals omega

/-- editDistance from the source, on strings. -/
def editDistance (a b : String) : Nat :=
  editDistanceList a.data b.data

/-- stringSimilarity from the source: (longerLength - editDistance) divided
by longerLength, and 1.0 when both strings are empty.  The JS float division
is modelled exactly in the rationals. -/
def stringSimilarity (a b : String) : ℚ :=
  let longer := if b.length < a.length then a else b
  let shorter := if b.length < a.length then b else a
  if longer.length = 0 then 1
  else ((longer.length : ℚ) - (editDistance longer shorter : ℚ)) / (longer.length : ℚ)

/-- Stage 2 of validateCooperative: first entry whose key contains or is
contained in the normalized input. -/
def containsMatchStage (normalized : String) : List (String × String) → Option String
  | [] => none
  | (k, v) :: rest =>
    if strIncludes normalized k || strIncludes k normalized then some v
    else containsMatchStage normalized rest

/-- One step of the stage-3 fuzzy-match fold: keep the entry when its score
exceeds 0.6 and beats the best score so far. -/
def fuzzyStep (normalized : String) (best : Option (String × ℚ)) (kv : String × String) :
    Option (String × ℚ) :=
  let score := stringSimilarity normalized kv.1
  match best with
  | none => if (0.6 : ℚ) < score then some (kv.2, score) else none
  | some (bv, bs) => if (0.6 : ℚ) < score ∧ bs < score then some (kv.2, score) else some (bv, bs)

/-- Stage 3 of validateCooperative: best fuzzy match over the table. -/
def fuzzyMatchStage (normalized : String) : Option String :=
  (COOPERATIVE_MAP.foldl (fuzzyStep normalized) none).map (fun p => p.1)

/-- validateCooperative from the source: empty input fails immediately;
then exact property lookup, then containment, then fuzzy similarity. -/
def validateCooperative (input : String) : Option String :=
  if input = "" then none
  else
    let normalized := normalizeCoopInput input
    match assocLookup normalized COOPERATIVE_MAP with
    | some v => some v
    | none =>
      match containsMatchStage normalized COOPERATIVE_MAP with
      | some v => some v
      | none => fuzzyMatchStage normalized

/-- maskEmail from the source. -/
def maskEmail (email : String) : String :=
  if email = "" then ""
  else if strIncludes email "@" = false ∨ (jsSplitAt email).length ≠ 2 then
    if 4 < email.length then jsTake2 email ++ starRepeat (email.length - 2) else email
  else
    let parts := jsSplitAt email
    let name := parts.getD 0 ""
    let domain := parts.getD 1 ""
    if name.length ≤ 2 then email
    else jsTake2 name ++ starRepeat (min (name.length - 2) 6) ++ "@" ++ domain

/-- AuthState enum from the source (NEED_COOPERATIVE is what the spec calls
NEED_TENANT). -/
inductive AuthState where
  | NEED_COOPERATIVE
  | NEED_CREDENTIALS
  | NEED_OTP
  | AUTHENTICATED
  | FAILED
deriving DecidableEq, Repr

/-- The credentials sub-object stored in a session. -/
structure Creds where
  email : Option String := none
  employee_number : Option String := none
deriving DecidableEq, Repr

/-- The per-room auth-state record.  A field that the JS object lacks is
none; status none models a record without a status property (fresh session).
Timestamps are integer milliseconds. -/
structure Session where
  status : Option AuthState := none
  cooperative : Option String := none
  credentials : Option Creds := none
  otp : Option String := none
  token : Option String := none
  postAuthAction : Option String := none
  verifiedAt : Option Nat := none
  updatedAt : Option Nat := none
  userId : Option String := none
  previousState : Option AuthState := none
  timedOut : Bool := false
deriving DecidableEq, Repr

/-- Auth keywords of authenticateAction.validate.  In the source each
keyword test is includes(k) or a word-boundary regex on k; the regex match
implies the substring match, so the disjunction is substring containment. -/
def authKeywords : List String :=
  ["login", "authenticate", "verify", "identity", "sign in",
   "credentials", "account access"]

/-- Loan keywords consulted inside authenticateAction.validate. -/
def authLoanKeywords : List String :=
  ["loan", "borrow", "credit", "payment", "balance"]

/-- Reset keywords of resetAction.validate. -/
def resetKeywords : List String :=
  ["reset", "restart", "start over", "clear", "begin again",
   "start fresh", "start new", "new session", "log out", "sign out",
   "forget me", "clean slate", "wipe", "from scratch", "re-do",
   "try again from beginning", "reboot", "fresh start"]

/-- Loan keywords of loanInfoAction.validate. -/
def loanKeywords : List String :=
  ["loan", "borrow", "credit", "debt", "owe", "payment",
   "balance", "due", "repayment", "interest", "principal",
   "check my", "view my", "show my", "get my", "tell me about my"]

/-- verifyOTPAction.validate: trims the text, handles only pure-digit
trimmed text, and then claims exactly when the session status is NEED_OTP. -/
def verifyOTPValidate (text : String) (s : Session) : Bool :=
  let t := jsTrim text
  if !(isAllDigits t) then false
  else decide (s.status = some AuthState.NEED_OTP)

/-- authenticateAction.validate: rejects pure-digit trimmed text; claims any
message while the session is mid-flow (status present and not
AUTHENTICATED), except the dead NEED_OTP-and-numeric re-check; otherwise
claims on an auth keyword unless a loan keyword is also present. -/
def authenticateValidate (text : String) (s : Session) : Bool :=
  let t := jsTrim text
  if isAllDigits t then false
  else if s.status ≠ some AuthState.AUTHENTICATED ∧ s.status ≠ none then
    if s.status = some AuthState.NEED_OTP ∧ isAllDigits t then false else true
  else
    let containsAuthKeyword := authKeywords.any (fun k => strIncludes t k)
    let containsLoanKeyword := authLoanKeywords.any (fun k => strIncludes t k)
    if containsLoanKeyword && containsAuthKeyword then false
    else containsAuthKeyword

/-- resetAction.validate: lowercases the text and looks for a reset
keyword. -/
def resetValidate (text : String) : Bool :=
  let t := jsToLower text
  resetKeywords.any (fun k => strIncludes t k)

/-- loanInfoAction.validate: lowercases the text; rejects pure digits;
rejects trimmed digits while NEED_OTP; rejects any mid-flow session (status
present and not AUTHENTICATED); otherwise claims on a loan keyword. -/
def loanInfoValidate (text : String) (s : Session) : Bool :=
  let t := jsToLower text
  if isAllDigits t then false
  else if isAllDigits (jsTrim t) ∧ s.status = some AuthState.NEED_OTP then false
  else if s.status ≠ some AuthState.AUTHENTICATED ∧ s.status ≠ none then false
  else loanKeywords.any (fun k => strIncludes t k)

/-- The four capabilities registered by the plugin. -/
inductive Capability where
  | verifyOtp
  | authenticate
  | reset
  | loanLookup
deriving DecidableEq, Repr

/-- The intent router of the spec instantiated with the claim predicates of
the source, consulted in the order of the plugin actions array
[verifyOTPAction, authenticateAction, resetAction, loanInfoAction]; the
first capability whose predicate claims the message wins. -/
def route (text : String) (s : Session) : Option Capability :=
  if verifyOTPValidate text s then some Capability.verifyOtp
  else if authenticateValidate text s then some Capability.authenticate
  else if resetValidate text then some Capability.reset
  else if loanInfoValidate text s then some Capability.loanLookup
  else none

/-- The observable branch taken by handleAuthentication. -/
inductive AuthOutcome where
  | deferOtp
  | resetFailed
  | cooperativeSelection
  | credentialsCollection
  | promptOtp
  | execPostAuth (action : String)
  | alreadyAuthenticated
  | startNewFlow
deriving DecidableEq, Repr

/-- handleAuthentication from the source: NEED_OTP with numeric trimmed text
defers to the OTP action; FAILED resets; then the switch on status, where
the AUTHENTICATED case executes a pending postAuthAction when one is set. -/
def handleAuthentication (text : String) (s : Session) : AuthOutcome :=
  if s.status = some AuthState.NEED_OTP ∧ isAllDigits (jsTrim text) then
    AuthOutcome.deferOtp
  else if s.status = some AuthState.FAILED then AuthOutcome.resetFailed
  else
    match s.status with
    | some AuthState.NEED_COOPERATIVE => AuthOutcome.cooperativeSelection
    | some AuthState.NEED_CREDENTIALS => AuthOutcome.credentialsCollection
    | some AuthState.NEED_OTP => AuthOutcome.promptOtp
    | some AuthState.AUTHENTICATED =>
      match s.postAuthAction with
      | some a => AuthOutcome.execPostAuth a
      | none => AuthOutcome.alreadyAuthenticated
    | some AuthState.FAILED => AuthOutcome.resetFailed
    | none => AuthOutcome.startNewFlow

/-- handlePostAuthAction from the source: for CHECK_LOAN it immediately
issues the loan-info fetch with the tenant and employee number already in
the session (no re-prompting); any other pending action is a no-op.  The
returned pair is the tenant and employee number of the issued fetch. -/
def handlePostAuthFetch (s : Session) : Option (Option String × Option String) :=
  match s.postAuthAction with
  | some a =>
    if a = "CHECK_LOAN" then
      some (s.cooperative, s.credentials.bind (fun c => c.employee_number))
    else none
  | none => none

/-- The observable branch taken by loanInfoAction.handler. -/
inductive LoanOutcome where
  | redirectToAuth
  | fetchLoan
deriving DecidableEq, Repr

/-- loanInfoAction.handler: an unauthenticated session is redirected into
the auth flow with postAuthAction CHECK_LOAN (full record replacement);
an authenticated one gets the loan fetch. -/
def loanInfoHandler (s : Session) : LoanOutcome × Session :=
  if s.status ≠ some AuthState.AUTHENTICATED then
    (LoanOutcome.redirectToAuth,
      { status := some AuthState.NEED_COOPERATIVE,
        userId := s.userId,
        postAuthAction := some "CHECK_LOAN" })
  else (LoanOutcome.fetchLoan, s)

/-- verifyOTPAction.handler restricted to its session effect: outside
NEED_OTP it does nothing; the trimmed entered text is compared to the stored
otp by exact string equality; a match sets AUTHENTICATED and stamps
verifiedAt (setAuthState also stamps updatedAt); a mismatch leaves the
session untouched. -/
def verifyOTPHandler (now : Nat) (text : String) (s : Session) : Session :=
  let entered := jsTrim text
  if s.status ≠ some AuthState.NEED_OTP then s
  else if some entered = s.otp then
    { s with status := some AuthState.AUTHENTICATED,
             verifiedAt := some now,
             updatedAt := some now }
  else s

/-- checkAndResetExpiredAuthState from the source: AUTHENTICATED or absent
status never expires; the threshold is 15 minutes for NEED_OTP, 20 for
NEED_CREDENTIALS, 30 otherwise; on expiry the session is overwritten by a
fresh NEED_COOPERATIVE record that keeps only the user id and records the
previous status and the timeout.  Returns whether a reset happened together
with the resulting session. -/
def checkAndResetExpiredAuthState (now : Int) (s : Session) : Bool × Session :=
  if s.status = some AuthState.AUTHENTICATED ∨ s.status = none then (false, s)
  else
    let updatedAt : Int := (s.updatedAt.getD 0 : Nat)
    let timeoutThreshold : Int :=
      if s.status = some AuthState.NEED_OTP then 15 * 60 * 1000
      else if s.status = some AuthState.NEED_CREDENTIALS then 20 * 60 * 1000
      else 30 * 60 * 1000
    if timeoutThreshold < now - updatedAt then
      (true,
        { status := some AuthState.NEED_COOPERATIVE,
          userId := s.userId,
          previousState := s.status,
          timedOut := true })
    else (false, s)

/-- The credentials part of the diagnostic object logged by setAuthState. -/
structure CredsLogView where
  email : Option String := none
  employee_number : Option String := none
deriving DecidableEq, Repr

/-- The diagnostic object logged by setAuthState before persisting: token
and otp are replaced by the redaction marker when truthy (absent when falsy)
and the credential email is passed through maskEmail. -/
structure AuthLogView where
  token : Option String := none
  otp : Option String := none
  credentials : Option CredsLogView := none
deriving DecidableEq, Repr

/-- The diagnostic view setAuthState emits for a session. -/
def setAuthStateLogView (s : Session) : AuthLogView :=
  { token := s.token.bind (fun t => if t = "" then none else some "[REDACTED]"),
    otp := s.otp.bind (fun o => if o = "" then none else some "[REDACTED]"),
    credentials := s.credentials.map (fun c =>
      { email := c.email.bind (fun e => if e = "" then none else some (maskEmail e)),
        employee_number := c.employee_number }) }

/-- String interpolation of a possibly-absent value in a JS template
literal: undefined prints as the text undefined. -/
def jsShowOpt (o : Option String) : String :=
  o.getD "undefined"

/-- The diagnostic line emitted by verifyOTPAction.validate for a numeric
message in NEED_OTP (source line 1922): it interpolates the stored expected
OTP and the trimmed received text directly. -/
def verifyOTPValidateLog (text : String) (s : Session) : String :=
  "Expected OTP: " ++ jsShowOpt s.otp ++ ", Received: " ++ jsTrim text

/-- A JSON-ish loan-record field value.  JS numbers in loan records are
modelled as integers; null and undefined are both vNull. -/
inductive LoanVal where
  | vNull
  | vStr (s : String)
  | vNum (n : Int)
  | vBool (b : Bool)
deriving DecidableEq, Repr

/-- JS Number.prototype.toFixed(2) on an integer-valued number. -/
def intToFixed2 (n : Int) : String :=
  toString n ++ ".00"

/-- One field of sanitizeLoanObject: null and undefined values are dropped;
a string value under a date or time key is re-emitted through the
environment Date parser when it parses (toISOString), untouched otherwise;
a number value under an amount, payment or balance key becomes its
two-decimal string; everything else is copied unchanged.  parseDate is the
environment function mapping a parsable date string to its canonical
toISOString form. -/
def sanitizeField (parseDate : String → Option String) (kv : String × LoanVal) :
    Option (String × LoanVal) :=
  match kv with
  | (_, LoanVal.vNull) => (none : Option (String × LoanVal))
  | (k, LoanVal.vStr s) =>
    if strIncludes (jsToLower k) "date" || strIncludes (jsToLower k) "time" then
      match parseDate s with
      | some iso => some (k, LoanVal.vStr iso)
      | none => some (k, LoanVal.vStr s)
    else some (k, LoanVal.vStr s)
  | (k, LoanVal.vNum n) =>
    if strIncludes (jsToLower k) "amount" || strIncludes (jsToLower k) "payment" ||
        strIncludes (jsToLower k) "balance" then
      some (k, LoanVal.vStr (intToFixed2 n))
    else some (k, LoanVal.vNum n)
  | (k, LoanVal.vBool b) => some (k, LoanVal.vBool b)

/-- sanitizeLoanObject from the source, over the ordered fields of one loan
record. -/
def sanitizeLoanObject (parseDate : String → Option String)
    (loan : List (String × LoanVal)) : List (String × LoanVal) :=
  loan.filterMap (sanitizeField parseDate)

/-- Loan data is a single record or an array of records. -/
inductive LoanData where
  | obj (fields : List (String × LoanVal))
  | arr (items : List (List (String × LoanVal)))
deriving DecidableEq, Repr

/-- sanitizeLoanData from the source: arrays are mapped element-wise. -/
def sanitizeLoanData (parseDate : String → Option String) : LoanData → LoanData
  | LoanData.obj fields => LoanData.obj (sanitizeLoanObject parseDate fields)
  | LoanData.arr items => LoanData.arr (items.map (sanitizeLoanObject parseDate))

/-- A concrete instantiation of the environment Date parser, defined on the
one date literal used by the concrete example records. -/
def dateEnv (s : String) : Option String :=
  if s = "2025-03-25T00:00:00Z" then some "2025-03-25T00:00:00.000Z" else none

/-- Fixed example sessions used by witnesses and counterexamples. -/
def sessionNeedOtp : Session :=
  { status := some AuthState.NEED_OTP, otp := some "123456",
    token := some "tok-1", cooperative := some "fusion", updatedAt := some 0 }

/-- An authenticated session carrying a pending CHECK_LOAN intent. -/
def sessionAuthPending : Session :=
  { status := some AuthState.AUTHENTICATED,
    postAuthAction := some "CHECK_LOAN",
    cooperative := some "fusion",
    credentials := some { email := some "user@mail.com", employee_number := some "FUS00005" },
    token := some "tok-1", otp := some "654321" }

/-- A NEED_OTP session whose stored OTP is the one-character string 7. -/
def sessionOtp7 : Session :=
  { status := some AuthState.NEED_OTP, otp := some "7" }

/- ---------- helper lemmas ---------- -/

theorem digit_not_ws (c : Char) (h : isDigitChar c = true) : isWSChar c = false := by
  simp only [isDigitChar, Bool.and_eq_true, decide_eq_true_eq] at h
  simp only [isWSChar, Bool.or_eq_false_iff, decide_eq_false_iff_not]
  omega

theorem jsCharToLower_digit (c : Char) (h : isDigitChar c = true) : jsCharToLower c = c := by
  simp only [isDigitChar, Bool.and_eq_true, decide_eq_true_eq] at h
  simp only [jsCharToLower]
  rw [if_neg]
  omega

theorem dropWhile_of_all_false (p : Char → Bool) (l : List Char)
    (h : ∀ c ∈ l, p c = false) : l.dropWhile p = l := by
  cases l with
  | nil => rfl
  | cons a as => simp [List.dropWhile, h a (by simp)]

theorem listTrim_of_all_digits (l : List Char) (h : l.all isDigitChar = true) :
    listTrim l = l := by
  have hws : ∀ c ∈ l, isWSChar c = false := by
    intro c hc
    exact digit_not_ws c (by simpa using (List.all_eq_true.mp h c hc))
  have h1 : l.dropWhile isWSChar = l := dropWhile_of_all_false _ _ hws
  have h2 : l.reverse.dropWhile isWSChar = l.reverse :=
    dropWhile_of_all_false _ _ (by intro c hc; exact hws c (List.mem_reverse.mp hc))
  simp [listTrim, h1, h2]

theorem jsTrim_of_all_digits (s : String) (h : isAllDigits s = true) : jsTrim s = s := by
  simp only [isAllDigits, Bool.and_eq_true] at h
  have : listTrim s.data = s.data := listTrim_of_all_digits _ h.2
  cases s with
  | mk data => simpa [jsTrim] using congrArg String.mk this

theorem jsToLower_of_all_digits (s : String) (h : isAllDigits s = true) :
    jsToLower s = s := by
  simp only [isAllDigits, Bool.and_eq_true] at h
  have : s.data.map jsCharToLower = s.data := by
    have := List.all_eq_true.mp h.2
    calc s.data.map jsCharToLower = s.data.map id := by
          apply List.map_congr_left
          intro c hc
          exact jsCharToLower_digit c (by simpa using this c hc)
      _ = s.data := List.map_id s.data
  cases s with
  | mk data => simpa [jsToLower] using congrArg String.mk this

/- ---------- claim theorems ---------- -/

/-- C1 (counterexample): the message " 4821" does not match the regex
^\d+$ (its first character is a space), yet the verifyOtp claim predicate
returns true for it in a NEED_OTP session, because the source trims the
text before testing the regex; so a non-digit message CAN be routed to
verifyOtp, contrary to the claim. -/
theorem verifyOtp_claims_whitespace_numeric_cex :
    isAllDigits " 4821" = false
    ∧ verifyOTPValidate " 4821" { status := some AuthState.NEED_OTP } = true := by
  decide

/-- C1 (amended): the verifyOtp claim predicate applies ^\d+$ to the TRIMMED
message text: when the trimmed text is purely numeric it claims exactly the
sessions whose status is NEED_OTP, and when the trimmed text is not purely
numeric it refuses regardless of session status. -/
theorem verifyOtp_claim_iff_need_otp_on_trimmed (text : String) (s : Session) :
    (isAllDigits (jsTrim text) = true →
      (verifyOTPValidate text s = true ↔ s.status = some AuthState.NEED_OTP))
    ∧ (isAllDigits (jsTrim text) = false → verifyOTPValidate text s = false) := by
  constructor
  · intro h
    simp [verifyOTPValidate, h]
  · intro h
    simp [verifyOTPValidate, h]

/-- C1 (witness): the amended theorem applied at the concrete texts 123456
and abc in the NEED_OTP example session. -/
theorem verifyOtp_claim_iff_need_otp_on_trimmed_witness :
    verifyOTPValidate "123456" sessionNeedOtp = true
    ∧ verifyOTPValidate "abc" sessionNeedOtp = false :=
  ⟨((verifyOtp_claim_iff_need_otp_on_trimmed "123456" sessionNeedOtp).1 (by decide)).mpr rfl,
   (verifyOtp_claim_iff_need_otp_on_trimmed "abc" sessionNeedOtp).2 (by decide)⟩

/-- C2: a purely numeric message (matching ^\d+$) is refused by the claim
predicates of both authenticate and loanLookup, in every session and every
phase. -/
theorem numeric_never_claimed_by_authenticate_or_loan (text : String) (s : Session)
    (h : isAllDigits text = true) :
    authenticateValidate text s = false ∧ loanInfoValidate text s = false := by
  have ht : jsTrim text = text := jsTrim_of_all_digits text h
  have hl : jsToLower text = text := jsToLower_of_all_digits text h
  constructor
  · simp [authenticateValidate, ht, h]
  · simp [loanInfoValidate, hl, h]

/-- C2 (witness): the theorem applied at the numeric message 12345 in the
authenticated pending session. -/
theorem numeric_never_claimed_by_authenticate_or_loan_witness :
    authenticateValidate "12345" sessionAuthPending = false
    ∧ loanInfoValidate "12345" sessionAuthPending = false :=
  numeric_never_claimed_by_authenticate_or_loan "12345" sessionAuthPending (by decide)

/-- C3 (counterexample): the non-numeric message contains a loan keyword,
yet in a mid-flow NEED_CREDENTIALS session the loanLookup claim predicate
returns false — the source rejects every session whose status is present and
not AUTHENTICATED, contrary to the claim that loan keywords claim regardless
of authentication status. -/
theorem loanLookup_rejects_midflow_cex :
    loanKeywords.any (fun k => strIncludes (jsToLower "what is my loan balance") k) = true
    ∧ isAllDigits "what is my loan balance" = false
    ∧ loanInfoValidate "what is my loan balance"
        { status := some AuthState.NEED_CREDENTIALS } = false := by
  decide

/-- C3 (amended): for a loan-keyword message that is not purely numeric, the
loanLookup claim predicate returns true exactly when the session is NOT
mid-auth-flow, that is when its status is AUTHENTICATED or absent; and when
the claimed session is unauthenticated (absent status) the handler redirects
into the authentication flow, overwriting the session with a fresh
NEED_COOPERATIVE record whose postAuthAction is CHECK_LOAN. -/
theorem loanLookup_claims_out_of_flow (text : String) (s : Session)
    (hkw : loanKeywords.any (fun k => strIncludes (jsToLower text) k) = true)
    (hnum : isAllDigits (jsTrim (jsToLower text)) = false) :
    (loanInfoValidate text s = true ↔
      (s.status = some AuthState.AUTHENTICATED ∨ s.status = none))
    ∧ (s.status = none →
        loanInfoHandler s =
          (LoanOutcome.redirectToAuth,
            { status := some AuthState.NEED_COOPERATIVE,
              userId := s.userId,
              postAuthAction := some "CHECK_LOAN" })) := by
  have h1 : isAllDigits (jsToLower text) = false := by
    cases hh : isAllDigits (jsToLower text) with
    | false => rfl
    | true =>
      rw [jsTrim_of_all_digits _ hh, hh] at hnum
      exact hnum
  constructor
  · cases hs : s.status with
    | none => simp [loanInfoValidate, h1, hnum, hs, hkw]
    | some st => cases st <;> simp [loanInfoValidate, h1, hnum, hs, hkw]
  · intro hs
    simp [loanInfoHandler, hs]

/-- C3 (witness): the amended theorem applied at a loan-keyword message and
the fresh (absent-status) session. -/
theorem loanLookup_claims_out_of_flow_witness :
    loanInfoValidate "i want a loan" ({} : Session) = true
    ∧ loanInfoHandler ({} : Session) =
        (LoanOutcome.redirectToAuth,
          { status := some AuthState.NEED_COOPERATIVE,
            userId := none,
            postAuthAction := some "CHECK_LOAN" }) :=
  ⟨(loanLookup_claims_out_of_flow "i want a loan" {} (by decide) (by decide)).1.mpr
      (Or.inr rfl),
   (loanLookup_claims_out_of_flow "i want a loan" {} (by decide) (by decide)).2 rfl⟩

/-- C4 (code bug): checkAndResetExpiredAuthState is defined in the source
but never invoked during the message-handling pass (or anywhere else), so
the claim predicates are consulted on the stale session.  Concretely: a
NEED_OTP session last updated at time 0 is expired at time 1000000000 ms
(threshold 15 minutes), yet the pass still routes the numeric message to
verifyOtp — a later-phase handler — whereas after the reset the claim
mandates, no capability would claim that message. -/
theorem expired_otp_session_still_routes_to_verifyOtp :
    (checkAndResetExpiredAuthState 1000000000 sessionNeedOtp).1 = true
    ∧ route "123456" sessionNeedOtp = some Capability.verifyOtp
    ∧ route "123456" (checkAndResetExpiredAuthState 1000000000 sessionNeedOtp).2 = none := by
  decide

/-- C5 (counterexample): an AUTHENTICATED session with pending intent
CHECK_LOAN receiving the message hello: no capability claims the message
(every validate returns false), so no handler runs and the pending loan
lookup is NOT executed — contrary to the claim that any incoming message
resumes it. -/
theorem pending_intent_not_resumed_cex :
    sessionAuthPending.status = some AuthState.AUTHENTICATED
    ∧ sessionAuthPending.postAuthAction = some "CHECK_LOAN"
    ∧ route "hello" sessionAuthPending = none := by
  decide

/-- C5 (amended): with status AUTHENTICATED and pending intent CHECK_LOAN,
only a message some capability claims resumes the intent: a non-numeric
message containing an auth keyword and no loan keyword routes to
authenticate, whose handler immediately executes the pending CHECK_LOAN,
issuing the loan fetch with the tenant and employee number already stored in
the session (no re-prompting); a message claimed by no capability leaves the
pending intent unexecuted. -/
theorem pending_intent_resumed_on_claimed_message (text : String) (s : Session)
    (hs : s.status = some AuthState.AUTHENTICATED)
    (hp : s.postAuthAction = some "CHECK_LOAN")
    (hnum : isAllDigits (jsTrim text) = false)
    (hauth : authKeywords.any (fun k => strIncludes (jsTrim text) k) = true)
    (hloan : authLoanKeywords.any (fun k => strIncludes (jsTrim text) k) = false) :
    route text s = some Capability.authenticate
    ∧ handleAuthentication text s = AuthOutcome.execPostAuth "CHECK_LOAN"
    ∧ handlePostAuthFetch s =
        some (s.cooperative, s.credentials.bind (fun c => c.employee_number)) := by
  refine ⟨?_, ?_, ?_⟩
  · simp [route, verifyOTPValidate, authenticateValidate, hnum, hs, hauth, hloan]
  · simp [handleAuthentication, hs, hp]
  · simp [handlePostAuthFetch, hp]

/-- C5 (witness): the amended theorem applied at the concrete message login
and the authenticated pending session. -/
theorem pending_intent_resumed_on_claimed_message_witness :
    route "login" sessionAuthPending = some Capability.authenticate
    ∧ handleAuthentication "login" sessionAuthPending = AuthOutcome.execPostAuth "CHECK_LOAN" :=
  ⟨(pending_intent_resumed_on_claimed_message "login" sessionAuthPending
      rfl rfl (by decide) (by decide) (by decide)).1,
   (pending_intent_resumed_on_claimed_message "login" sessionAuthPending
      rfl rfl (by decide) (by decide) (by decide)).2.1⟩

/-- C6: in a NEED_OTP session the OTP handler compares the trimmed entered
text to the stored otp by exact string equality; on a match the session
becomes AUTHENTICATED with verifiedAt stamped (and updatedAt refreshed by
the store write); on a mismatch the session is returned completely unchanged
— still NEED_OTP, no attempt counter, no field altered. -/
theorem otp_exact_string_match (now : Nat) (text : String) (s : Session)
    (h : s.status = some AuthState.NEED_OTP) :
    (s.otp = some (jsTrim text) →
      verifyOTPHandler now text s =
        { s with status := some AuthState.AUTHENTICATED,
                 verifiedAt := some now, updatedAt := some now })
    ∧ (s.otp ≠ some (jsTrim text) → verifyOTPHandler now text s = s) := by
  constructor
  · intro h2
    simp [verifyOTPHandler, h, h2]
  · intro h2
    have hne : ¬ (some (jsTrim text) = s.otp) := fun hh => h2 hh.symm
    simp [verifyOTPHandler, h, hne]

/-- C6 (witness): the theorem applied where the stored otp is the string 7
and the entered text is 007 — exact string comparison fails, the session is
unchanged. -/
theorem otp_exact_string_match_witness :
    verifyOTPHandler 99 "007" sessionOtp7 = sessionOtp7 :=
  (otp_exact_string_match 99 "007" sessionOtp7 rfl).2 (by decide)

/-- C7 (counterexample): the diagnostic line that verifyOTPAction.validate
emits for a numeric message in NEED_OTP interpolates the stored expected OTP
in plaintext — the secret 482913 appears verbatim in diagnostic output,
contrary to the claim that every observability sink redacts secrets. -/
theorem otp_plaintext_in_diagnostics_cex :
    verifyOTPValidateLog "482913"
        { status := some AuthState.NEED_OTP, otp := some "482913", token := some "tok-8" }
      = "Expected OTP: 482913, Received: 482913"
    ∧ strIncludes
        (verifyOTPValidateLog "482913"
          { status := some AuthState.NEED_OTP, otp := some "482913", token := some "tok-8" })
        "482913" = true := by
  decide

/-- C7 (amended): the state-store diagnostic sink (setAuthState) does redact
secrets — a present non-empty token or otp is logged as the redaction marker
and the credential email is logged masked — but the OTP-verification action
logs the expected OTP and the raw entered text in plaintext. -/
theorem setAuthState_log_redacts (text : String) (s : Session) :
    (∀ t, s.token = some t → t ≠ "" → (setAuthStateLogView s).token = some "[REDACTED]")
    ∧ (∀ o, s.otp = some o → o ≠ "" → (setAuthStateLogView s).otp = some "[REDACTED]")
    ∧ (∀ c e, s.credentials = some c → c.email = some e → e ≠ "" →
        ((setAuthStateLogView s).credentials.bind (fun cv => cv.email)) = some (maskEmail e))
    ∧ (∀ o, s.otp = some o →
        verifyOTPValidateLog text s = "Expected OTP: " ++ o ++ ", Received: " ++ jsTrim text) := by
  refine ⟨?_, ?_, ?_, ?_⟩
  · intro t h1 h2
    simp [setAuthStateLogView, h1, h2]
  · intro o h1 h2
    simp [setAuthStateLogView, h1, h2]
  · intro c e h1 h2 h3
    simp [setAuthStateLogView, h1, h2, h3]
  · intro o h1
    simp [verifyOTPValidateLog, jsShowOpt, h1]

/-- C7 (witness): the amended theorem applied to the authenticated pending
session, whose token, otp and credential email are all present. -/
theorem setAuthState_log_redacts_witness :
    (setAuthStateLogView sessionAuthPending).token = some "[REDACTED]"
    ∧ (setAuthStateLogView sessionAuthPending).otp = some "[REDACTED]"
    ∧ ((setAuthStateLogView sessionAuthPending).credentials.bind (fun cv => cv.email))
        = some (maskEmail "user@mail.com") :=
  ⟨(setAuthState_log_redacts "x" sessionAuthPending).1 "tok-1" rfl (by decide),
   (setAuthState_log_redacts "x" sessionAuthPending).2.1 "654321" rfl (by decide),
   (setAuthState_log_redacts "x" sessionAuthPending).2.2.1
     { email := some "user@mail.com", employee_number := some "FUS00005" }
     "user@mail.com" rfl rfl (by decide)⟩

/-- A sanitized field value is never null: sanitizeField drops null values
and every branch that keeps a field emits a non-null value. -/
theorem sanitizeField_some_ne_null (pd : String → Option String)
    (kv p : String × LoanVal) (h : sanitizeField pd kv = some p) :
    p.2 ≠ LoanVal.vNull := by
  obtain ⟨k0, v0⟩ := kv
  cases v0 with
  | vNull => simp [sanitizeField] at h
  | vStr s0 =>
    simp only [sanitizeField] at h
    split at h
    · cases hp : pd s0 <;> simp only [hp] at h <;>
        (obtain rfl := Option.some.inj h; simp)
    · obtain rfl := Option.some.inj h
      simp
  | vNum n =>
    simp only [sanitizeField] at h
    split at h <;> (obtain rfl := Option.some.inj h; simp)
  | vBool b =>
    simp only [sanitizeField] at h
    obtain rfl := Option.some.inj h
    simp

/-- C8 (counterexample): a field whose key contains amount but whose value
is a STRING is copied unchanged by sanitizeLoanObject — it is not coerced to
a fixed two-decimal numeric string (the output contains no decimal point),
contrary to the claim that every amount-keyed field is so coerced; the
source only coerces number-typed values. -/
theorem sanitize_string_amount_not_coerced_cex :
    sanitizeLoanObject dateEnv [("amountDue", LoanVal.vStr "50000")]
      = [("amountDue", LoanVal.vStr "50000")]
    ∧ strIncludes "50000" "." = false := by
  decide

/-- C8 (amended): sanitization drops every null/absent field and maps arrays
of records element-wise; a STRING value under a date/time key is re-emitted
in canonical timestamp form when the environment Date parser accepts it; a
NUMBER value under an amount/payment/balance key is coerced to its fixed
two-decimal string; values of other types are copied unchanged.  In
particular the record with dueDate 2025-03-25T00:00:00Z and amountDue 50000
sanitizes to the canonical timestamp string and the two-decimal string
50000.00. -/
theorem sanitize_loan_amended (pd : String → Option String)
    (hpd : pd "2025-03-25T00:00:00Z" = some "2025-03-25T00:00:00.000Z") :
    sanitizeLoanData pd
        (LoanData.obj [("dueDate", LoanVal.vStr "2025-03-25T00:00:00Z"),
                       ("amountDue", LoanVal.vNum 50000)])
      = LoanData.obj [("dueDate", LoanVal.vStr "2025-03-25T00:00:00.000Z"),
                      ("amountDue", LoanVal.vStr "50000.00")]
    ∧ (∀ fields k v, (k, v) ∈ sanitizeLoanObject pd fields → v ≠ LoanVal.vNull)
    ∧ (∀ fields k n, (k, LoanVal.vNum n) ∈ fields →
        (strIncludes (jsToLower k) "amount" || strIncludes (jsToLower k) "payment" ||
          strIncludes (jsToLower k) "balance") = true →
        (k, LoanVal.vStr (intToFixed2 n)) ∈ sanitizeLoanObject pd fields)
    ∧ (∀ items, sanitizeLoanData pd (LoanData.arr items)
        = LoanData.arr (items.map (sanitizeLoanObject pd))) := by
  refine ⟨?_, ?_, ?_, fun items => rfl⟩
  · have h1 : sanitizeField pd ("dueDate", LoanVal.vStr "2025-03-25T00:00:00Z")
        = some ("dueDate", LoanVal.vStr "2025-03-25T00:00:00.000Z") := by
      simp only [sanitizeField]
      rw [if_pos (by decide), hpd]
    have h2 : sanitizeField pd ("amountDue", LoanVal.vNum 50000)
        = some ("amountDue", LoanVal.vStr "50000.00") := by
      simp only [sanitizeField]
      rw [if_pos (by decide)]
      decide
    simp [sanitizeLoanData, sanitizeLoanObject, List.filterMap_cons, h1, h2]
  · intro fields k v hmem
    rw [sanitizeLoanObject, List.mem_filterMap] at hmem
    obtain ⟨⟨k0, v0⟩, _, hf⟩ := hmem
    exact sanitizeField_some_ne_null pd (k0, v0) (k, v) hf
  · intro fields k n hin hkey
    rw [sanitizeLoanObject, List.mem_filterMap]
    exact ⟨(k, LoanVal.vNum n), hin, by simp [sanitizeField, hkey]⟩

/-- C8 (witness): the amended theorem applied at the concrete environment
parser dateEnv and the concrete example record. -/
theorem sanitize_loan_amended_witness :
    sanitizeLoanData dateEnv
        (LoanData.obj [("dueDate", LoanVal.vStr "2025-03-25T00:00:00Z"),
                       ("amountDue", LoanVal.vNum 50000)])
      = LoanData.obj [("dueDate", LoanVal.vStr "2025-03-25T00:00:00.000Z"),
                      ("amountDue", LoanVal.vStr "50000.00")] :=
  (sanitize_loan_amended dateEnv (by decide)).1

/-- C9: whenever the normalized input (uppercased, with every
non-alphanumeric character stripped) is exactly a key of the canonical
table, validateCooperative returns the id that key maps to; in particular
the inputs immigration and immigrationmcs both resolve to the same tenant id
immigrationmcs (alias collapsing). -/
theorem resolver_exact_on_normalized (input v : String)
    (h : assocLookup (normalizeCoopInput input) COOPERATIVE_MAP = some v) :
    validateCooperative input = some v
    ∧ validateCooperative "immigration" = some "immigrationmcs"
    ∧ validateCooperative "immigrationmcs" = some "immigrationmcs" := by
  refine ⟨?_, by decide, by decide⟩
  by_cases hin : input = ""
  · subst hin
    rw [show normalizeCoopInput "" = "" from rfl,
      show assocLookup "" COOPERATIVE_MAP = none from by decide] at h
    exact absurd h (by simp)
  · simp [validateCooperative, hin, h]

/-- C9 (witness): the theorem applied at the raw input Immigration! which
normalizes to the table key IMMIGRATION. -/
theorem resolver_exact_on_normalized_witness :
    validateCooperative "Immigration!" = some "immigrationmcs" :=
  (resolver_exact_on_normalized "Immigration!" "immigrationmcs" (by decide)).1

/-- C10: for a well-formed email (nonempty, exactly one at-sign, local part
longer than two characters) the masked output is the first two local-part
characters, a run of stars whose length depends only on the local-part
length, and the domain; hence any two such emails agreeing on domain,
local-part length and first two local-part characters mask identically —
the output never depends on any later local-part character. -/
theorem maskEmail_reveals_only_first2_len_domain (e₁ e₂ n₁ n₂ d : String)
    (he₁ : e₁ ≠ "") (he₂ : e₂ ≠ "")
    (hi₁ : strIncludes e₁ "@" = true) (hi₂ : strIncludes e₂ "@" = true)
    (hs₁ : jsSplitAt e₁ = [n₁, d]) (hs₂ : jsSplitAt e₂ = [n₂, d])
    (hlen : n₁.length = n₂.length) (hgt : 2 < n₁.length)
    (ht : jsTake2 n₁ = jsTake2 n₂) :
    maskEmail e₁ = jsTake2 n₁ ++ starRepeat (min (n₁.length - 2) 6) ++ "@" ++ d
    ∧ maskEmail e₁ = maskEmail e₂ := by
  have hnle₁ : ¬ (n₁.length ≤ 2) := by omega
  have hnle₂ : ¬ (n₂.length ≤ 2) := by omega
  have form₁ : maskEmail e₁ = jsTake2 n₁ ++ starRepeat (min (n₁.length - 2) 6) ++ "@" ++ d := by
    simp [maskEmail, he₁, hi₁, hs₁, hnle₁]
  have form₂ : maskEmail e₂ = jsTake2 n₂ ++ starRepeat (min (n₂.length - 2) 6) ++ "@" ++ d := by
    simp [maskEmail, he₂, hi₂, hs₂, hnle₂]
  exact ⟨form₁, by rw [form₁, form₂, ht, hlen]⟩

/-- C10 (witness): two concrete emails sharing domain, local-part length and
first two local-part characters but differing everywhere else mask to the
same string. -/
theorem maskEmail_reveals_only_first2_len_domain_witness :
    maskEmail "johndoe@mail.com" = "jo" ++ starRepeat 5 ++ "@" ++ "mail.com"
    ∧ maskEmail "johndoe@mail.com" = maskEmail "jozzzzz@mail.com" :=
  ⟨(maskEmail_reveals_only_first2_len_domain "johndoe@mail.com" "jozzzzz@mail.com"
      "johndoe" "jozzzzz" "mail.com" (by decide) (by decide) (by decide) (by decide)
      (by decide) (by decide) (by decide) (by decide) (by decide)).1,
   (maskEmail_reveals_only_first2_len_domain "johndoe@mail.com" "jozzzzz@mail.com"
      "johndoe" "jozzzzz" "mail.com" (by decide) (by decide) (by decide) (by decide)
      (by decide) (by decide) (by decide) (by decide) (by decide)).2⟩

end Fuse
